import Mathlib

/-!
Shallow embedding of the query-translation core of `esg_fastapi`
(`src/esg_fastapi/utils.py`, `src/esg_fastapi/api/models.py`,
`src/esg_fastapi/api/routes.py`, `src/esg_fastapi/api/globus.py`),
together with theorems settling the frozen claims about it.

Modelling conventions:
- Python strings are Lean `String`; `str.split(",")` is `pySplit ','`
  (returning `[""]` on the empty string, like Python), `str.strip()` is
  `pyStrip`; both are structural-recursion equivalents of the library
  `String.splitOn` / `String.trim`, written so that the kernel can
  evaluate them.
- Python `s.startswith('"')` / `s.endswith('"')` test the first / last
  character; they are embedded as `.data.head?` / `.data.getLast?` checks.
- Pydantic models become structures; machine integers are `Int`; the float
  constant `0.5` is the exact rational `1/2` (no rounding is involved).
- Fallible code (list indexing that can raise) returns `Option`.
- The `ESGSearchQuery` pydantic model declares about 150 optional
  "queryable" fields (every field declared on `ESGSearchQuery` itself, as
  opposed to the meta fields of `ESGSearchQueryBase`: `query`, `format`,
  `bbox`, `offset`, `limit`, `replica`, `distrib`, `facets`, `min_version`,
  `max_version`, `from`, `to`).  All of them default to `None` except
  `type`, whose default is the literal `"Dataset"` and which can never be
  `None`.  The embedding keeps `type` as an explicit field and represents
  the remaining queryable fields by the association list `setFields` of the
  fields explicitly provided by the caller (pydantic's
  `model_dump(exclude_unset=True)` view); since every other queryable field
  defaults to `None`, the `model_dump(exclude_none=True)` view used for the
  legacy `fq` echo is exactly `type` plus `setFields`.  Field order inside
  a dump is normalised so that `type` comes first; no claim depends on the
  order.
-/

namespace EsgFastapi

/-- Python `str.split(sep)` for a one-character separator, by structural
recursion on the character list (the library `String.splitOn` has the
same semantics on these inputs but does not reduce in the kernel).
`split` never returns an empty list; on the empty string it returns
`[""]`, exactly like Python. -/
def pySplitChars (sep : Char) : List Char → List (List Char)
  | [] => [[]]
  | c :: cs =>
    match pySplitChars sep cs with
    | [] => [[]]
    | h :: t => if c = sep then [] :: h :: t else (c :: h) :: t

/-- Python `str.split(sep)` on strings. -/
def pySplit (sep : Char) (s : String) : List String :=
  (pySplitChars sep s.data).map (fun l => { data := l })

/-- Python whitespace for `str.strip()`, as far as the inputs at hand go. -/
def pyIsSpace (c : Char) : Bool :=
  c = ' ' || c = '\t' || c = '\n' || c = '\r'

/-- Python `str.strip()`: drop whitespace from both ends (structural
stand-in for `String.trim`, which does not reduce in the kernel). -/
def pyStrip (s : String) : String :=
  { data := ((s.data.dropWhile pyIsSpace).reverse.dropWhile pyIsSpace).reverse }

/-- Values a queryable field can hold after pydantic validation: a plain
string (single-valued fields), a list of strings (`MultiValued` fields,
already comma-split by the `ensure_list` before-validator), or a boolean
(fields such as `latest`). -/
inductive QueryValue where
  | str (s : String)
  | list (l : List String)
  | bool (b : Bool)
deriving DecidableEq, Repr

/-- An element of a `GlobusMatchFilter.values` list (`Sequence[str | bool]`
in the source). -/
inductive StrOrBool where
  | s (s : String)
  | b (b : Bool)
deriving DecidableEq, Repr

/-- Rendering of a term by a Python f-string: `str()` of the value
(`str(True) == "True"`). -/
def StrOrBool.render : StrOrBool → String
  | .s v => v
  | .b v => if v then "True" else "False"

/-- `utils.ensure_list`: a string is split on commas, a list is returned
as is, any other value is wrapped in a singleton list. -/
def ensure_list : QueryValue → List StrOrBool
  | .str s => (pySplit ',' s).map .s
  | .list l => l.map .s
  | .bool b => [.b b]

/-- `utils.quote_str`: wrap a string in double quotes unless it already
starts or ends with a double quote (Python
`value.startswith('"') or value.endswith('"')`). -/
def quote_str (value : String) : String :=
  if value.data.head? ≠ some '"' && value.data.getLast? ≠ some '"' then
    "\"" ++ value ++ "\""
  else value

/-- `utils.format_fq_field`: render one `(field, value)` pair as the legacy
Solr filter-query fragment.  Every term is passed through `quote_str`
except terms of the fields in `non_quoted_fields = {"type"}`; terms are
joined with `" || "`.  Non-string terms pass through `quote_str` unchanged
and are rendered by the f-string. -/
def format_fq_field (field : String × QueryValue) : String :=
  let non_quoted_fields : List String := ["type"]
  let key := field.1
  " || ".intercalate ((ensure_list field.2).map (fun term =>
    key ++ ":" ++
      (if non_quoted_fields.contains key then term.render
       else match term with
            | .s v => quote_str v
            | .b v => StrOrBool.render (.b v))))

/-- Result type of `utils.one_or_list` when applied to a list of strings:
either the single unwrapped string or the original list. -/
inductive SolrFQ where
  | one (s : String)
  | many (l : List String)
deriving DecidableEq, Repr

/-- `utils.one_or_list`: a list of length 1 is unwrapped to its single
element; any other list is returned unchanged. -/
def one_or_list (value : List String) : SolrFQ :=
  match value with
  | [x] => .one x
  | _ => .many value

/-- `ESGSearchQuery.type` is `Literal["Dataset", "File"]` in the source. -/
inductive RecordType where
  | Dataset
  | File
deriving DecidableEq, Repr

/-- The string value of the `type` field. -/
def RecordType.toStr : RecordType → String
  | .Dataset => "Dataset"
  | .File => "File"

/-- Modelled from the spec: `OptionalParam`, which `api/models.py` imports
from `api/types.py`, is absent from the provided source tree
(`api/types.py` does not define it).  The spec (section 3) describes a
query field as "absent, single string, list of strings, boolean, integer,
or timestamp", with no value coercion attached to optionality, so the
type is modelled as a plain `Option` wrapper. -/
abbrev OptionalParam (α : Type) : Type := Option α

/-- The `ESGSearchQuery` pydantic model (meta fields of
`ESGSearchQueryBase` plus the queryable fields).  `min_version_set`,
`max_version_set`, `from_set`, `to_set` and `type_set` record membership
in pydantic's `model_fields_set` (whether the caller explicitly supplied
the field); `setFields` lists the explicitly-set queryable fields other
than `type`, in model-field order, with their validated values.
Timestamps (`from`/`to`) are kept as their formatted string form, which
the claims never inspect. -/
structure ESGSearchQuery where
  query : OptionalParam String := none
  offset : OptionalParam Int := some 0
  limit : OptionalParam Int := some 10
  facets : OptionalParam String := none
  min_version : OptionalParam Int := none
  max_version : OptionalParam Int := none
  from_ : OptionalParam String := none
  to_ : OptionalParam String := none
  min_version_set : Bool := false
  max_version_set : Bool := false
  from_set : Bool := false
  to_set : Bool := false
  type : RecordType := .Dataset
  type_set : Bool := false
  setFields : List (String × QueryValue) := []
deriving DecidableEq, Repr

/-- The `model_dump(exclude_unset=True, include=_queriable_fields())` view
of a query: the queryable fields the caller explicitly set. -/
def ESGSearchQuery.dumpSetQueriable (q : ESGSearchQuery) :
    List (String × QueryValue) :=
  (if q.type_set then [("type", QueryValue.str q.type.toStr)] else []) ++
    q.setFields

/-- The `model_dump(exclude_none=True, include=_queriable_fields())` view
of a query: all queryable fields with a non-`None` value.  Only `type` has
a non-`None` default, so this is `type` plus the explicitly-set fields. -/
def ESGSearchQuery.dumpNonNoneQueriable (q : ESGSearchQuery) :
    List (String × QueryValue) :=
  ("type", QueryValue.str q.type.toStr) :: q.setFields

/-- `utils.fq_field_from_esg_search_query`: format every non-`None`
queryable field and collapse the fragment list with `one_or_list`. -/
def fq_field_from_esg_search_query (query : ESGSearchQuery) : SolrFQ :=
  one_or_list (query.dumpNonNoneQueriable.map format_fq_field)

/-- One bound of a `GlobusRange`: `datetime | int | Literal["*"]`, with
`"*"` as the default for an unset bound (pydantic serialises the datetime
case as a formatted string, kept opaque here). -/
inductive GlobusRangeBound where
  | star
  | int (n : Int)
  | time (s : String)
deriving DecidableEq, Repr

/-- `GlobusRange`: the `from`/`to` pair of a range filter, both defaulting
to `"*"`. -/
structure GlobusRange where
  from_ : GlobusRangeBound := .star
  to_ : GlobusRangeBound := .star
deriving DecidableEq, Repr

/-- `GlobusFacet`: a requested facet; `size` defaults to the backend-safe
large constant `2_000_000_000`. -/
structure GlobusFacet where
  name : String
  field_name : String
  size : Nat := 2000000000
deriving DecidableEq, Repr

/-- A Globus Search filter: `GlobusMatchFilter` (constructed with its
default `type = "match_any"`) or `GlobusRangeFilter`. -/
inductive GlobusFilter where
  | match_any (field_name : String) (values : List StrOrBool)
  | range (field_name : String) (values : List GlobusRange)
deriving DecidableEq, Repr

/-- The `GlobusSearchQuery` pydantic model (the structured query document
sent to the backend), with the source defaults. -/
structure GlobusSearchQuery where
  version_ : String := "query#1.0.0"
  q : OptionalParam String := none
  advanced : Bool := true
  limit : Int := 10
  offset : Int := 0
  filters : OptionalParam (List GlobusFilter) := none
  facets : OptionalParam (List GlobusFacet) := none
deriving DecidableEq, Repr

/-- `GlobusSearchQuery.convert_esg_seach_facets_field` (string case): split
the comma-separated facet list and build one `GlobusFacet` per
whitespace-trimmed name. -/
def GlobusSearchQuery.convert_esg_seach_facets_field (value : String) :
    List GlobusFacet :=
  (pySplit ',' value).map (fun facet =>
    { name := pyStrip facet, field_name := pyStrip facet })

/-- The `version` range filter of `from_esg_search_query`: present when
`min_version` or `max_version` is in `model_fields_set`, each `None`
bound becoming the `"*"` default. -/
def version_filters_of (query : ESGSearchQuery) : List GlobusFilter :=
  if query.min_version_set || query.max_version_set then
    [.range "version"
      [{ from_ := query.min_version.elim .star .int,
         to_ := query.max_version.elim .star .int }]]
  else []

/-- The `_timestamp` range filter of `from_esg_search_query`: present when
`from` or `to` is in `model_fields_set`, with the `x or "*"` rule. -/
def timestamp_filters_of (query : ESGSearchQuery) : List GlobusFilter :=
  if query.from_set || query.to_set then
    [.range "_timestamp"
      [{ from_ := query.from_.elim .star .time,
         to_ := query.to_.elim .star .time }]]
  else []

/-- The `match_any` filters of `from_esg_search_query`: one per
explicitly-set queryable field, the value comma-split when a string (the
`GlobusMatchFilter` validator `ensure_list` leaves the resulting list
unchanged). -/
def match_filters_of (query : ESGSearchQuery) : List GlobusFilter :=
  query.dumpSetQueriable.map (fun fv =>
    .match_any fv.1 (ensure_list fv.2))

/-- The `built_filters` accumulator of `from_esg_search_query`. -/
def built_filters_of (query : ESGSearchQuery) : List GlobusFilter :=
  version_filters_of query ++ timestamp_filters_of query ++
    match_filters_of query

/-- `GlobusSearchQuery.from_esg_search_query`: translate an
`ESGSearchQuery` into the structured backend query.

- `filters` is `built_filters_of` (version range, timestamp range, one
  `match_any` per explicitly-set queryable field), but only set when that
  list is non-empty (Python truthiness of the list);
- `limit`, `offset`, `facets` are copied when not `None`, otherwise the
  `GlobusSearchQuery` defaults (10, 0, `None`) stand;
- the free-text query is copied only when truthy and different from the
  literal `"*"`. -/
def GlobusSearchQuery.from_esg_search_query (query : ESGSearchQuery) :
    GlobusSearchQuery :=
  { q := match query.query with
         | some s => if s ≠ "" && s ≠ "*" then some s else none
         | none => none
    limit := query.limit.getD 10
    offset := query.offset.getD 0
    filters := if (built_filters_of query).isEmpty then none
               else some (built_filters_of query)
    facets := query.facets.map convert_esg_seach_facets_field }

/-- The `match_any` entries among a structured query's filters. -/
def GlobusSearchQuery.matchFilters (g : GlobusSearchQuery) :
    List GlobusFilter :=
  (g.filters.getD []).filter (fun f =>
    match f with
    | .match_any _ _ => true
    | .range _ _ => false)

/-- A JSON scalar inside a Solr document, as far as the claims need it
(string, number, boolean).  The score constant `0.5` is the exact
rational `1/2`. -/
inductive JsonVal where
  | str (s : String)
  | num (q : ℚ)
  | bool (b : Bool)
deriving DecidableEq, Repr

/-- A `SolrDoc` (`dict[str, Any]` in the source), embedded as an
association list with Python-dict semantics via `dictGet`/`dictSet`. -/
abbrev SolrDoc := List (String × JsonVal)

/-- Python `dict.get`: the value at the first (unique) matching key. -/
def dictGet (d : SolrDoc) (k : String) : Option JsonVal :=
  (d.find? (fun kv => kv.1 = k)).map (fun kv => kv.2)

/-- Python dict update (`d | {k: v}` for one key): replace the value in
place when the key exists, otherwise append the new pair. -/
def dictSet (d : SolrDoc) (k : String) (v : JsonVal) : SolrDoc :=
  if (d.find? (fun kv => kv.1 = k)).isSome then
    d.map (fun kv => if kv.1 = k then (k, v) else kv)
  else d ++ [(k, v)]

/-- `GlobusMetaEntry`: one entry of a Globus search record. -/
structure GlobusMetaEntry where
  content : SolrDoc
  entry_id : OptionalParam String := none
  matched_principal_sets : List String := []
deriving DecidableEq, Repr

/-- `GlobusMetaResult`: the entries grouped under one subject. -/
structure GlobusMetaResult where
  subject : String
  entries : List GlobusMetaEntry
deriving DecidableEq, Repr

/-- `utils.solr_docs_from_globus_meta_results`: for each record, merge
`{"id": record.subject, "score": 0.5}` over `record.entries[0].content`.
The `entries[0]` index raises on an empty entry list, hence the `Option`
result. -/
def solr_docs_from_globus_meta_results (results : List GlobusMetaResult) :
    Option (List SolrDoc) :=
  results.mapM (fun record =>
    (record.entries.head?).map (fun e =>
      dictSet (dictSet e.content "id" (.str record.subject))
        "score" (.num (mkRat 1 2))))

/-- `GlobusBucket`: one facet bucket of a backend result. -/
structure GlobusBucket where
  value : String
  count : Int
deriving DecidableEq, Repr

/-- `GlobusFacetResult`: one facet of a backend result. -/
structure GlobusFacetResult where
  name : String
  value : OptionalParam ℚ := none
  buckets : List GlobusBucket
deriving DecidableEq, Repr

/-- `GlobusSearchResult`: the structured result document returned by the
backend. -/
structure GlobusSearchResult where
  gmeta : List GlobusMetaResult
  facet_results : OptionalParam (List GlobusFacetResult) := none
  offset : Int
  count : Int
  total : Int
  has_next_page : Bool
deriving DecidableEq, Repr

/-- `ESGSearchResult`: the `response` section of the legacy response. -/
structure ESGSearchResult where
  numFound : Int
  start : Int
  docs : List SolrDoc
deriving DecidableEq, Repr

/-- `record.get("score", 0)` of one doc, as the rational score value
(a non-numeric `score` entry also falls back to `0`; pipeline-produced
docs always carry a numeric score). -/
def SolrDoc.scoreOf (record : SolrDoc) : ℚ :=
  match dictGet record "score" with
  | some (.num q) => q
  | some _ => 0
  | none => 0

/-- `ESGSearchResult.maxScore`: `max` over each doc's score field with
`default=None`, so `None` exactly when `docs` is empty. -/
def ESGSearchResult.maxScore (self : ESGSearchResult) : Option ℚ :=
  match self.docs.map SolrDoc.scoreOf with
  | [] => none
  | x :: xs => some (xs.foldl max x)

/-- The caching metadata attached to an `httpx` response by the cache
layer: `extensions["from_cache"]` and
`extensions["cache_metadata"]["cache_key"]`. -/
structure CachedResponse where
  from_cache : Bool
  cache_key : String
deriving DecidableEq, Repr

/-- The client request headers consulted by the conditional-request
validation (`headers.get("if-none-match")`, `headers.get("if-match")`):
`none` when the header is absent. -/
structure RequestHeaders where
  if_none_match : OptionalParam String := none
  if_match : OptionalParam String := none
deriving DecidableEq, Repr

/-- Outcome of `validate_cache_request_directives`: return normally, or
raise `HTTPException(304)` / `HTTPException(412)`. -/
inductive ValidationResult where
  | ok
  | not_modified
  | precondition_failed
deriving DecidableEq, Repr

/-- Python truthiness of `headers.get(...)`: `None` and the empty string
are falsy. -/
def headerTruthy : Option String → Bool
  | some s => !s.isEmpty
  | none => false

/-- `routes.validate_cache_request_directives`: on a cached response,
check `if-none-match` first (`raise 304` on an etag match); only when that
header is absent or empty (`elif`) check `if-match` (`raise 412` on a
mismatch).  A non-cached response skips both checks. -/
def validate_cache_request_directives (response : CachedResponse)
    (headers : RequestHeaders) : ValidationResult :=
  if !response.from_cache then .ok
  else if headerTruthy headers.if_none_match then
    if response.cache_key = headers.if_none_match.getD "" then .not_modified
    else .ok
  else if headerTruthy headers.if_match then
    if response.cache_key ≠ headers.if_match.getD "" then .precondition_failed
    else .ok
  else .ok

/-- A backend response as the route observes it: the parsed
`GlobusSearchResult` body plus the cache-layer extensions. -/
structure BackendResponse where
  result : GlobusSearchResult
  from_cache : Bool := false
  cache_key : String := ""
  timing_total : Nat := 0
deriving DecidableEq, Repr

/-- The cache-relevant view of a backend response. -/
def BackendResponse.toCached (r : BackendResponse) : CachedResponse :=
  { from_cache := r.from_cache, cache_key := r.cache_key }

/-- `rows_query = globus_query.model_copy(update=WITHOUT_FACETS)` with
`WITHOUT_FACETS = {"facets": []}`. -/
def rows_query_of (globus_query : GlobusSearchQuery) : GlobusSearchQuery :=
  { globus_query with facets := some [] }

/-- `facets_query = globus_query.model_copy(update=WITHOUT_ROWS)` with
`WITHOUT_ROWS = {"limit": 0}`. -/
def facets_query_of (globus_query : GlobusSearchQuery) : GlobusSearchQuery :=
  { globus_query with limit := 0 }

/-- The two `HTTPException`s that `search_globus` lets propagate from the
conditional-request validation. -/
inductive SearchFailure where
  | not_modified
  | precondition_failed
deriving DecidableEq, Repr

/-- `routes.search_globus`, with the backend (`globus_client.search`)
abstracted as a function from structured query to response.  Returns the
list of backend queries issued, in order, and either the propagated
validation failure or the merged `GlobusSearchResult` (the rows-response
body, its `facet_results` overwritten from the facets response when
`globus_query.facets` is truthy, i.e. a non-empty list). -/
def search_globus (backend : GlobusSearchQuery → BackendResponse)
    (q : ESGSearchQuery) (headers : RequestHeaders) :
    List GlobusSearchQuery × Except SearchFailure GlobusSearchResult :=
  let globus_query := GlobusSearchQuery.from_esg_search_query q
  let rows_query := rows_query_of globus_query
  let rows_response := backend rows_query
  match validate_cache_request_directives rows_response.toCached headers with
  | .not_modified => ([rows_query], .error .not_modified)
  | .precondition_failed => ([rows_query], .error .precondition_failed)
  | .ok =>
    match globus_query.facets with
    | none => ([rows_query], .ok rows_response.result)
    | some facets =>
      if facets.isEmpty then ([rows_query], .ok rows_response.result)
      else
        let facets_query := facets_query_of globus_query
        let facets_response := backend facets_query
        ([rows_query, facets_query],
          .ok { rows_response.result with
                  facet_results := facets_response.result.facet_results })

/-- `GlobusToken` (`api/types.py`): the fields of one issued token. -/
structure GlobusToken where
  access_token : String
  expires_in : Int := 0
  resource_server : String
  scope : String := ""
deriving DecidableEq, Repr

/-- `GlobusTokenResponse`: a token response is itself a token, extended
with the `other_tokens` list. -/
structure GlobusTokenResponse extends GlobusToken where
  id_token : String := ""
  state : String := ""
  other_tokens : List GlobusToken
deriving DecidableEq, Repr

/-- `globus.find_search_token`: the top-level token when its
`resource_server` is `"search.api.globus.org"`, otherwise the first
matching entry of `other_tokens`; `RuntimeError` when nothing matches. -/
def find_search_token (token_response : GlobusTokenResponse) :
    Except String GlobusToken :=
  if token_response.resource_server = "search.api.globus.org" then
    .ok token_response.toGlobusToken
  else
    match token_response.other_tokens.find? (fun token =>
        token.resource_server = "search.api.globus.org") with
    | some token => .ok token
    | none => .error "Token response did not contain a search token"

/-- The rows query of step 1 of the execution plan, as a function of the
incoming legacy query. -/
def rows_backend_query (q : ESGSearchQuery) : GlobusSearchQuery :=
  rows_query_of (GlobusSearchQuery.from_esg_search_query q)

/-- The facets query of step 3 of the execution plan, as a function of the
incoming legacy query. -/
def facets_backend_query (q : ESGSearchQuery) : GlobusSearchQuery :=
  facets_query_of (GlobusSearchQuery.from_esg_search_query q)


/-! Helper lemmas (shared; none of these is a claim theorem). -/

lemma pySplitChars_ne_nil (sep : Char) (l : List Char) :
    pySplitChars sep l ≠ [] := by
  cases l with
  | nil => simp [pySplitChars]
  | cons c cs =>
    simp only [pySplitChars]
    rcases h : pySplitChars sep cs with _ | ⟨h', t⟩
    · simp
    · by_cases hc : c = sep <;> simp [hc]

lemma pySplit_ne_nil (sep : Char) (s : String) : pySplit sep s ≠ [] := by
  simpa [pySplit] using pySplitChars_ne_nil sep s.data

lemma convert_facets_ne_nil (s : String) :
    GlobusSearchQuery.convert_esg_seach_facets_field s ≠ [] := by
  simpa [GlobusSearchQuery.convert_esg_seach_facets_field] using
    pySplit_ne_nil ',' s


/-! Claim C1. -/

/-- C1 counterexample: the claim says a free-text query equal to the
wildcard sentinel `"*:*"` is omitted from the structured query, but
`from_esg_search_query` only drops the literal `"*"`: for the query string
`"*:*"` the structured query's free-text field is set (to `"*:*"`), not
absent.  (The repository's own test suite pins this behaviour:
`test_GlobusSearchQuery_from_esg_search_query_skips_star` expects `q` to
be set for `"*:*"`.) -/
theorem star_colon_star_query_is_not_omitted :
    (GlobusSearchQuery.from_esg_search_query
        { query := some "*:*" }).q = some "*:*" ∧
    some "*:*" ≠ (none : Option String) := by
  constructor
  · decide
  · decide

/-- C1 (amended): the free-text query is omitted from the structured query
exactly when it is absent, the empty string, or the literal `"*"`; any
other non-empty value — including `"*:*"` — is preserved verbatim. -/
theorem free_text_query_mapping (q : ESGSearchQuery) :
    ((q.query = none ∨ q.query = some "" ∨ q.query = some "*") →
      (GlobusSearchQuery.from_esg_search_query q).q = none) ∧
    (∀ s, q.query = some s → s ≠ "" → s ≠ "*" →
      (GlobusSearchQuery.from_esg_search_query q).q = some s) := by
  constructor
  · rintro (h | h | h) <;>
      simp [GlobusSearchQuery.from_esg_search_query, h]
  · intro s hs h1 h2
    simp [GlobusSearchQuery.from_esg_search_query, hs, h1, h2]

/-- C1 witness: instantiation of `free_text_query_mapping` at the query
string `"CMIP6"`. -/
theorem free_text_query_mapping_witness :
    (({ query := some "CMIP6" } : ESGSearchQuery).query = some "CMIP6" ∧
      "CMIP6" ≠ "" ∧ "CMIP6" ≠ "*") ∧
    (GlobusSearchQuery.from_esg_search_query
        { query := some "CMIP6" }).q = some "CMIP6" :=
  ⟨⟨rfl, by decide, by decide⟩,
    (free_text_query_mapping { query := some "CMIP6" }).2 "CMIP6" rfl
      (by decide) (by decide)⟩


/-! Claim C2. -/

/-- C2 counterexample: the claim says a cached response with an `if-match`
header different from the cache key fails with 412, but the source checks
`if-match` in an `elif` branch: when an `if-none-match` header is also
present (here `"a"`, not matching the key), the `if-match` check is
skipped and validation succeeds. -/
theorem if_match_skipped_when_if_none_match_present :
    validate_cache_request_directives
        { from_cache := true, cache_key := "k" }
        { if_none_match := some "a", if_match := some "b" } = .ok ∧
    ("b" : String) ≠ "k" ∧ ("a" : String) ≠ "k" := by
  decide

/-- C2 (amended): on a response served from cache, a non-empty
`if-none-match` equal to the cache key fails with `NotModified`; a
non-empty `if-match` different from the cache key fails with
`PreconditionFailed` only when no non-empty `if-none-match` header is
present (the source checks `if-match` in an `elif` branch, and Python
truthiness treats an empty header value as absent); a response not served
from cache skips both checks. -/
theorem conditional_request_validation (response : CachedResponse)
    (headers : RequestHeaders) :
    (response.from_cache = false →
      validate_cache_request_directives response headers = .ok) ∧
    (∀ etag, response.from_cache = true →
      headers.if_none_match = some etag → etag.isEmpty = false →
      response.cache_key = etag →
      validate_cache_request_directives response headers = .not_modified) ∧
    (∀ etag, response.from_cache = true →
      headers.if_none_match = some etag → etag.isEmpty = false →
      response.cache_key ≠ etag →
      validate_cache_request_directives response headers = .ok) ∧
    (∀ etag, response.from_cache = true →
      headerTruthy headers.if_none_match = false →
      headers.if_match = some etag → etag.isEmpty = false →
      response.cache_key ≠ etag →
      validate_cache_request_directives response headers =
        .precondition_failed) ∧
    (∀ etag, response.from_cache = true →
      headerTruthy headers.if_none_match = false →
      headers.if_match = some etag → etag.isEmpty = false →
      response.cache_key = etag →
      validate_cache_request_directives response headers = .ok) := by
  refine ⟨?_, ?_, ?_, ?_, ?_⟩
  · intro h
    simp [validate_cache_request_directives, h]
  · intro etag h hn he hk
    simp [validate_cache_request_directives, h, hn, headerTruthy, he, hk]
  · intro etag h hn he hk
    simp [validate_cache_request_directives, h, hn, headerTruthy, he, hk]
  · intro etag h hn hm he hk
    rcases hnm : headers.if_none_match with _ | s
    · simp [validate_cache_request_directives, h, hnm, hm, headerTruthy, he, hk]
    · rw [hnm] at hn
      simp only [headerTruthy, Bool.not_eq_false'] at hn
      simp [validate_cache_request_directives, h, hnm, hm, headerTruthy, he,
        hk, hn]
  · intro etag h hn hm he hk
    rcases hnm : headers.if_none_match with _ | s
    · simp [validate_cache_request_directives, h, hnm, hm, headerTruthy, he, hk]
    · rw [hnm] at hn
      simp only [headerTruthy, Bool.not_eq_false'] at hn
      simp [validate_cache_request_directives, h, hnm, hm, headerTruthy, he,
        hk, hn]

/-- C2 witness: instantiation of `conditional_request_validation` at a
cached response with key `"k"` and a matching `if-none-match` header. -/
theorem conditional_request_validation_witness :
    (true = true ∧ (some "k" : Option String) = some "k" ∧
      ("k").isEmpty = false ∧ ("k" : String) = "k") ∧
    validate_cache_request_directives
      { from_cache := true, cache_key := "k" }
      { if_none_match := some "k" } = .not_modified :=
  ⟨⟨rfl, rfl, by decide, rfl⟩,
    (conditional_request_validation
        { from_cache := true, cache_key := "k" }
        { if_none_match := some "k" }).2.1 "k" rfl rfl (by decide) rfl⟩


/-! Claims C5 and C9: quoting of filter-query terms. -/

lemma quote_str_of_unquoted (v : String) (h1 : v.data.head? ≠ some '"')
    (h2 : v.data.getLast? ≠ some '"') :
    quote_str v = "\"" ++ v ++ "\"" := by
  simp [quote_str, h1, h2]

lemma quote_str_of_quoted (v : String)
    (h : v.data.head? = some '"' ∨ v.data.getLast? = some '"') :
    quote_str v = v := by
  rcases h with h | h <;> simp [quote_str, h]

/-- C5 counterexample: the claim says every term of a queryable field
other than `type` is wrapped in double quotes, but a term that already
starts (or ends) with a double quote is passed through unchanged by
`quote_str`: the term `"a` (leading quote) is rendered as `project:"a`,
not as the wrapped `project:""a""`. -/
theorem pre_quoted_term_is_not_wrapped :
    format_fq_field ("project", .list ["\"a"]) = "project:\"a" ∧
    ("project:\"a" : String) ≠ "project:\"\"a\"" := by
  decide

/-- C5 (amended): a term of a field other than `type` that does not
already start or end with a double quote is rendered as `field:"term"`;
terms of the field `type` are rendered unquoted as `type:term`; multiple
values of one field are joined by `" || "` in order. -/
theorem fq_fragment_quoting (key : String) (vs : List String) :
    (key ≠ "type" →
      (∀ v ∈ vs, v.data.head? ≠ some '"' ∧ v.data.getLast? ≠ some '"') →
      format_fq_field (key, .list vs) =
        " || ".intercalate
          (vs.map (fun v => key ++ ":" ++ ("\"" ++ v ++ "\"")))) ∧
    format_fq_field ("type", .list vs) =
      " || ".intercalate (vs.map (fun v => "type" ++ ":" ++ v)) := by
  constructor
  · intro hk hv
    have hcontains : (["type"] : List String).contains key = false := by
      simpa using hk
    simp only [format_fq_field, ensure_list, List.map_map, hcontains,
      Bool.false_eq_true, if_false]
    congr 1
    refine List.map_congr_left (fun v hvmem => ?_)
    simp only [Function.comp_apply]
    rw [quote_str_of_unquoted v (hv v hvmem).1 (hv v hvmem).2]
  · simp only [format_fq_field, ensure_list, List.map_map]
    congr 1

/-- C5 witness: instantiation of `fq_fragment_quoting` at the spec's own
example `formatFQ("data_node", ["a","b"])`. -/
theorem fq_fragment_quoting_witness :
    (("data_node" : String) ≠ "type" ∧
      (∀ v ∈ (["a", "b"] : List String),
        v.data.head? ≠ some '"' ∧ v.data.getLast? ≠ some '"')) ∧
    format_fq_field ("data_node", .list ["a", "b"]) =
      " || ".intercalate
        ((["a", "b"] : List String).map
          (fun v => "data_node" ++ ":" ++ ("\"" ++ v ++ "\""))) :=
  ⟨⟨by decide, by decide⟩,
    (fq_fragment_quoting "data_node" ["a", "b"]).1 (by decide) (by decide)⟩

/-- C9: `quote_str` leaves unchanged any string that already starts or
ends with a double quote; it is idempotent on every string; and
consequently the filter-query formatter passes a term with a leading or
trailing quote through unquoted rather than wrapping it again. -/
theorem quote_str_idempotent (s' : String) :
    (∀ s : String,
      (s.data.head? = some '"' ∨ s.data.getLast? = some '"') →
      quote_str s = s) ∧
    quote_str (quote_str s') = quote_str s' ∧
    (∀ key term, key ≠ "type" →
      (term.data.head? = some '"' ∨ term.data.getLast? = some '"') →
      format_fq_field (key, .list [term]) = key ++ ":" ++ term) := by
  refine ⟨quote_str_of_quoted, ?_, ?_⟩
  · by_cases h1 : s'.data.head? = some '"'
    · rw [quote_str_of_quoted s' (Or.inl h1), quote_str_of_quoted s' (Or.inl h1)]
    · by_cases h2 : s'.data.getLast? = some '"'
      · rw [quote_str_of_quoted s' (Or.inr h2), quote_str_of_quoted s' (Or.inr h2)]
      · rw [quote_str_of_unquoted s' h1 h2]
        refine quote_str_of_quoted _ (Or.inl ?_)
        simp [String.data_append]
  · intro key term hk h
    have hcontains : (["type"] : List String).contains key = false := by
      simpa using hk
    simp only [format_fq_field, ensure_list, List.map_map, hcontains,
      Bool.false_eq_true, if_false, List.map_cons, List.map_nil,
      Function.comp_apply]
    rw [quote_str_of_quoted term h]
    rfl

/-- C9 witness: instantiation of `quote_str_idempotent` at the string
`"x` (leading double quote), which `quote_str` leaves unchanged. -/
theorem quote_str_idempotent_witness :
    (("\"x" : String).data.head? = some '"' ∨
      ("\"x" : String).data.getLast? = some '"') ∧
    quote_str "\"x" = "\"x" :=
  ⟨Or.inl (by decide),
    (quote_str_idempotent "hello").1 "\"x" (Or.inl (by decide))⟩


/-! Claim C7. -/

/-- C7: `find_search_token` returns a token whose `resource_server` is
`"search.api.globus.org"` — the top-level token if it matches, otherwise
(whenever `other_tokens` contains a match) a matching entry of
`other_tokens` — and fails with the `RuntimeError` message when neither
the top-level token nor any entry matches. -/
theorem scoped_token_selection (resp : GlobusTokenResponse) :
    (resp.resource_server = "search.api.globus.org" →
      find_search_token resp = .ok resp.toGlobusToken) ∧
    ((resp.resource_server ≠ "search.api.globus.org" ∧
      ∃ t ∈ resp.other_tokens,
        t.resource_server = "search.api.globus.org") →
      ∃ t ∈ resp.other_tokens,
        t.resource_server = "search.api.globus.org" ∧
        find_search_token resp = .ok t) ∧
    (∀ t, find_search_token resp = .ok t →
      t.resource_server = "search.api.globus.org" ∧
      (t = resp.toGlobusToken ∨ t ∈ resp.other_tokens)) ∧
    ((resp.resource_server ≠ "search.api.globus.org" ∧
      ∀ t ∈ resp.other_tokens,
        t.resource_server ≠ "search.api.globus.org") →
      find_search_token resp =
        .error "Token response did not contain a search token") := by
  refine ⟨?_, ?_, ?_, ?_⟩
  · intro h
    simp [find_search_token, h]
  · rintro ⟨h1, t0, ht0mem, ht0⟩
    have hsome : (resp.other_tokens.find? (fun token =>
        token.resource_server = "search.api.globus.org")).isSome := by
      rw [List.find?_isSome]
      exact ⟨t0, ht0mem, by simpa using ht0⟩
    rcases Option.isSome_iff_exists.mp hsome with ⟨t, hf⟩
    refine ⟨t, List.mem_of_find?_eq_some hf, ?_, ?_⟩
    · simpa using List.find?_some hf
    · simp [find_search_token, h1, hf]
  · intro t ht
    by_cases h : resp.resource_server = "search.api.globus.org"
    · simp [find_search_token, h] at ht
      subst ht
      exact ⟨h, Or.inl rfl⟩
    · rcases hf : resp.other_tokens.find? (fun token =>
          token.resource_server = "search.api.globus.org") with _ | tok
      · simp [find_search_token, h, hf] at ht
      · have hmem := List.mem_of_find?_eq_some hf
        have hp := List.find?_some hf
        simp only [decide_eq_true_eq] at hp
        simp [find_search_token, h, hf] at ht
        subst ht
        exact ⟨hp, Or.inr hmem⟩
  · rintro ⟨h1, h2⟩
    have hnone : resp.other_tokens.find? (fun token =>
        token.resource_server = "search.api.globus.org") = none := by
      refine List.find?_eq_none.mpr (fun x hx => ?_)
      simpa using h2 x hx
    simp [find_search_token, h1, hnone]

/-- A sample token response whose top-level token is the search-scoped
one. -/
def sample_token_response : GlobusTokenResponse :=
  { access_token := "t", resource_server := "search.api.globus.org",
    other_tokens := [] }

/-- A sample token response whose top-level token mismatches but whose
`other_tokens` list contains the search-scoped token. -/
def sample_nested_token_response : GlobusTokenResponse :=
  { access_token := "t", resource_server := "auth.globus.org",
    other_tokens :=
      [{ access_token := "u",
         resource_server := "search.api.globus.org" }] }

/-- C7 witness: instantiations of `scoped_token_selection` at a response
whose top-level token is the search-scoped one, and at a response where
only a nested `other_tokens` entry matches. -/
theorem scoped_token_selection_witness :
    (sample_token_response.resource_server = "search.api.globus.org" ∧
      find_search_token sample_token_response =
        .ok sample_token_response.toGlobusToken) ∧
    ((sample_nested_token_response.resource_server ≠
        "search.api.globus.org" ∧
      ∃ t ∈ sample_nested_token_response.other_tokens,
        t.resource_server = "search.api.globus.org") ∧
      ∃ t ∈ sample_nested_token_response.other_tokens,
        t.resource_server = "search.api.globus.org" ∧
        find_search_token sample_nested_token_response = .ok t) :=
  ⟨⟨rfl, (scoped_token_selection sample_token_response).1 rfl⟩,
    ⟨⟨by decide, by decide⟩,
      (scoped_token_selection sample_nested_token_response).2.1
        ⟨by decide, by decide⟩⟩⟩


/-! Claims C3, C6, C10: filters from set fields, the fq echo. -/

/-- Whether a filter is a `match_any` filter (the predicate inside
`GlobusSearchQuery.matchFilters`). -/
def isMatchAny (f : GlobusFilter) : Bool :=
  match f with
  | .match_any _ _ => true
  | .range _ _ => false

lemma matchFilters_def (g : GlobusSearchQuery) :
    g.matchFilters = (g.filters.getD []).filter isMatchAny := by
  rfl

lemma filter_isMatchAny_map (l : List (String × QueryValue)) :
    (l.map (fun fv => GlobusFilter.match_any fv.1 (ensure_list fv.2))).filter
        isMatchAny =
      l.map (fun fv => GlobusFilter.match_any fv.1 (ensure_list fv.2)) := by
  induction l with
  | nil => rfl
  | cons fv rest ih => simp [isMatchAny, ih]

lemma filter_isMatchAny_version (q : ESGSearchQuery) :
    (version_filters_of q).filter isMatchAny = [] := by
  unfold version_filters_of
  split <;> simp [isMatchAny]

lemma filter_isMatchAny_timestamp (q : ESGSearchQuery) :
    (timestamp_filters_of q).filter isMatchAny = [] := by
  unfold timestamp_filters_of
  split <;> simp [isMatchAny]

/-- The `match_any` filters of the structured query are exactly one per
explicitly-set queryable field, in dump order, with the field's value run
through `ensure_list`. -/
lemma matchFilters_from_esg (q : ESGSearchQuery) :
    (GlobusSearchQuery.from_esg_search_query q).matchFilters =
      q.dumpSetQueriable.map
        (fun fv => GlobusFilter.match_any fv.1 (ensure_list fv.2)) := by
  rw [matchFilters_def]
  have hfilters : (GlobusSearchQuery.from_esg_search_query q).filters =
      if (built_filters_of q).isEmpty then none
      else some (built_filters_of q) := rfl
  rw [hfilters]
  by_cases h : (built_filters_of q).isEmpty
  · rw [List.isEmpty_iff] at h
    have hmatch : match_filters_of q = [] :=
      (List.append_eq_nil.mp h).2
    rw [match_filters_of] at hmatch
    rw [h, hmatch]
    simp
  · simp only [h, Bool.false_eq_true, if_false, Option.getD_some]
    rw [built_filters_of, List.filter_append, List.filter_append,
      filter_isMatchAny_version, filter_isMatchAny_timestamp,
      match_filters_of, filter_isMatchAny_map]
    rfl

/-- C3 counterexample: the claim says a queryable field whose value is
the empty string is excluded from the filters entirely, but the mapper
has no emptiness check: a query with `project` explicitly set to `""`
(validated by the `MultiValued` `ensure_list` validator to `[""]`)
produces a `match_any` filter on `project` with values `[""]`. -/
theorem empty_string_field_still_produces_filter :
    (GlobusSearchQuery.from_esg_search_query
        { setFields := [("project", .str "")] }).filters =
      some [.match_any "project" [.s ""]] ∧
    ([StrOrBool.s ""] : List StrOrBool) ≠ [] := by
  constructor
  · decide
  · decide

/-- C3 (amended): the mapper emits exactly one `match_any` filter per
queryable field explicitly set by the caller — the field's value coerced
to a list by `ensure_list`, comma-split if a string — and no filter for
unset or defaulted queryable fields; a field explicitly set to the empty
string is not excluded: it yields a filter whose values list is `[""]`. -/
theorem one_filter_per_set_field (q : ESGSearchQuery) :
    (GlobusSearchQuery.from_esg_search_query q).matchFilters =
      q.dumpSetQueriable.map
        (fun fv => GlobusFilter.match_any fv.1 (ensure_list fv.2)) ∧
    (∀ k : String,
      (GlobusSearchQuery.from_esg_search_query
          { setFields := [(k, .str "")] }).matchFilters =
        [.match_any k [.s ""]]) :=
  ⟨matchFilters_from_esg q, fun k => by
    rw [matchFilters_from_esg]
    rfl⟩

/-- C3 witness: instantiation of `one_filter_per_set_field` at a query
with two set fields. -/
theorem one_filter_per_set_field_witness :
    (GlobusSearchQuery.from_esg_search_query
        { setFields := [("project", .str "CMIP6"),
                        ("data_node", .str "a,b")] }).matchFilters =
      (ESGSearchQuery.dumpSetQueriable
          { setFields := [("project", .str "CMIP6"),
                          ("data_node", .str "a,b")] }).map
        (fun fv => GlobusFilter.match_any fv.1 (ensure_list fv.2)) :=
  (one_filter_per_set_field
      { setFields := [("project", .str "CMIP6"),
                      ("data_node", .str "a,b")] }).1

/-- C6: the legacy `fq` echo collapses to a single scalar string when at
most one queryable field produced a fragment, and stays a list of
per-field fragments when two or more fields produced fragments. -/
theorem fq_scalar_collapse (q : ESGSearchQuery) :
    ((q.dumpNonNoneQueriable.map format_fq_field).length ≤ 1 →
      ∃ s, fq_field_from_esg_search_query q = .one s) ∧
    (2 ≤ (q.dumpNonNoneQueriable.map format_fq_field).length →
      ∃ l, fq_field_from_esg_search_query q = .many l ∧
        l.length = (q.dumpNonNoneQueriable.map format_fq_field).length) := by
  constructor
  · intro h
    rcases hs : q.setFields with _ | ⟨fv, rest⟩
    · refine ⟨format_fq_field ("type", .str q.type.toStr), ?_⟩
      rw [fq_field_from_esg_search_query, ESGSearchQuery.dumpNonNoneQueriable,
        hs]
      rfl
    · exfalso
      rw [ESGSearchQuery.dumpNonNoneQueriable, hs] at h
      simp at h
  · intro h
    rcases hs : q.setFields with _ | ⟨fv, rest⟩
    · exfalso
      rw [ESGSearchQuery.dumpNonNoneQueriable, hs] at h
      simp at h
    · refine ⟨(q.dumpNonNoneQueriable.map format_fq_field), ?_, rfl⟩
      rw [fq_field_from_esg_search_query, ESGSearchQuery.dumpNonNoneQueriable,
        hs]
      rfl

/-- C6 witness: instantiations of `fq_scalar_collapse` on a query with no
set queryable field (single `type:Dataset` fragment, scalar) and on a
query with one set field (two fragments, list). -/
theorem fq_scalar_collapse_witness :
    (((ESGSearchQuery.dumpNonNoneQueriable {}).map format_fq_field).length
        ≤ 1 ∧
      ∃ s, fq_field_from_esg_search_query {} = .one s) ∧
    (2 ≤ ((ESGSearchQuery.dumpNonNoneQueriable
          { setFields := [("project", .str "CMIP6")] }).map
            format_fq_field).length ∧
      ∃ l, fq_field_from_esg_search_query
          { setFields := [("project", .str "CMIP6")] } = .many l ∧
        l.length = ((ESGSearchQuery.dumpNonNoneQueriable
          { setFields := [("project", .str "CMIP6")] }).map
            format_fq_field).length) :=
  ⟨⟨by decide, (fq_scalar_collapse {}).1 (by decide)⟩,
    ⟨by decide,
      (fq_scalar_collapse { setFields := [("project", .str "CMIP6")] }).2
        (by decide)⟩⟩

/-- C10: the legacy `fq` echo is built from all queryable fields whose
value is not `None` — so it always contains a `type:` fragment (the
`type` field defaults to `"Dataset"` and can never be `None`) and is
never empty — while the structured filters are built only from the
explicitly-set queryable fields (one `match_any` per set field, plus one
for `type` only when the caller set it). -/
theorem fq_always_contains_type (q : ESGSearchQuery) :
    ("type:" ++ q.type.toStr) ∈ q.dumpNonNoneQueriable.map format_fq_field ∧
    q.dumpNonNoneQueriable.map format_fq_field ≠ [] ∧
    fq_field_from_esg_search_query q ≠ .many [] ∧
    (q.dumpNonNoneQueriable.map format_fq_field).length =
      q.setFields.length + 1 ∧
    (GlobusSearchQuery.from_esg_search_query q).matchFilters.length =
      q.setFields.length + (if q.type_set then 1 else 0) := by
  have htype : format_fq_field ("type", QueryValue.str q.type.toStr) =
      "type:" ++ q.type.toStr := by
    cases q.type <;> decide
  refine ⟨?_, ?_, ?_, ?_, ?_⟩
  · rw [ESGSearchQuery.dumpNonNoneQueriable, List.map_cons, htype]
    exact List.mem_cons_self _ _
  · rw [ESGSearchQuery.dumpNonNoneQueriable]
    simp
  · rw [fq_field_from_esg_search_query, ESGSearchQuery.dumpNonNoneQueriable,
      List.map_cons]
    rcases hrest : q.setFields.map format_fq_field with _ | ⟨x, xs⟩ <;>
      simp [one_or_list]
  · rw [ESGSearchQuery.dumpNonNoneQueriable]
    simp [Nat.add_comm]
  · rw [matchFilters_from_esg, ESGSearchQuery.dumpSetQueriable]
    by_cases h : q.type_set <;> simp [h, Nat.add_comm]

/-- C10 witness: instantiation of `fq_always_contains_type` at the
default query (no queryable field set). -/
theorem fq_always_contains_type_witness :
    ("type:" ++ RecordType.toStr .Dataset) ∈
      ((ESGSearchQuery.dumpNonNoneQueriable {}).map format_fq_field) ∧
    fq_field_from_esg_search_query {} ≠ .many [] :=
  ⟨(fq_always_contains_type {}).1, (fq_always_contains_type {}).2.2.1⟩


/-! Claim C8: synthesized scores and maxScore. -/

lemma foldl_max_mem (x : ℚ) (xs : List ℚ) : xs.foldl max x ∈ x :: xs := by
  induction xs generalizing x with
  | nil => simp
  | cons y ys ih =>
    simp only [List.foldl_cons]
    rcases List.mem_cons.mp (ih (max x y)) with h | h
    · rcases max_choice x y with hx | hy
      · exact List.mem_cons.mpr (.inl (h.trans hx))
      · exact List.mem_cons.mpr (.inr (List.mem_cons.mpr (.inl (h.trans hy))))
    · exact List.mem_cons.mpr (.inr (List.mem_cons.mpr (.inr h)))

lemma le_foldl_max (x : ℚ) (xs : List ℚ) :
    ∀ a ∈ x :: xs, a ≤ xs.foldl max x := by
  induction xs generalizing x with
  | nil =>
    intro a ha
    rw [List.mem_singleton] at ha
    simp [ha]
  | cons y ys ih =>
    intro a ha
    simp only [List.foldl_cons]
    rcases List.mem_cons.mp ha with rfl | ha'
    · exact le_trans (le_max_left a y)
        (ih (max a y) (max a y) (List.mem_cons_self _ _))
    · rcases List.mem_cons.mp ha' with rfl | ha''
      · exact le_trans (le_max_right x a)
          (ih (max x a) (max x a) (List.mem_cons_self _ _))
      · exact ih (max x y) a (List.mem_cons.mpr (.inr ha''))

lemma foldl_max_const (x : ℚ) (xs : List ℚ) (c : ℚ)
    (hall : ∀ a ∈ x :: xs, a = c) : xs.foldl max x = c := by
  rcases List.mem_cons.mp (foldl_max_mem x xs) with h | h
  · rw [h]
    exact hall x (List.mem_cons_self _ _)
  · exact hall _ (List.mem_cons.mpr (.inr h))

lemma find?_map_set (d : SolrDoc) (k : String) (v : JsonVal)
    (hs : (d.find? (fun kv => kv.1 = k)).isSome) :
    (d.map (fun kv => if kv.1 = k then (k, v) else kv)).find?
        (fun kv => kv.1 = k) = some (k, v) := by
  induction d with
  | nil => simp at hs
  | cons kv rest ih =>
    by_cases h : kv.1 = k
    · simp [h]
    · rw [List.map_cons, if_neg h, List.find?_cons_of_neg _ (by simpa using h)]
      rw [List.find?_cons_of_neg _ (by simpa using h)] at hs
      exact ih hs

lemma dictGet_dictSet_self (d : SolrDoc) (k : String) (v : JsonVal) :
    dictGet (dictSet d k v) k = some v := by
  unfold dictGet dictSet
  by_cases hs : (d.find? (fun kv => kv.1 = k)).isSome
  · rw [if_pos hs, find?_map_set d k v hs]
    rfl
  · rw [if_neg hs, List.find?_append,
      Option.not_isSome_iff_eq_none.mp hs]
    simp

lemma solr_docs_scores (results : List GlobusMetaResult)
    (docs : List SolrDoc)
    (h : solr_docs_from_globus_meta_results results = some docs) :
    ∀ d ∈ docs, dictGet d "score" = some (.num (mkRat 1 2)) := by
  induction results generalizing docs with
  | nil =>
    rw [solr_docs_from_globus_meta_results, List.mapM_nil] at h
    cases h
    simp
  | cons r rest ih =>
    rw [solr_docs_from_globus_meta_results, List.mapM_cons] at h
    rcases hh : r.entries.head? with _ | e
    · rw [hh] at h
      simp at h
    · rw [hh] at h
      simp only [Option.map_some', Option.pure_def, Option.bind_eq_bind,
        Option.some_bind] at h
      rcases hrest : rest.mapM (fun record => (record.entries.head?).map
          (fun e => dictSet (dictSet e.content "id" (.str record.subject))
            "score" (.num (mkRat 1 2)))) with _ | ds
      · rw [solr_docs_from_globus_meta_results] at ih
        rw [hrest] at h
        simp at h
      · rw [hrest] at h
        simp only [Option.some_bind, Option.some_inj] at h
        intro d hd
        rw [← h] at hd
        rcases List.mem_cons.mp hd with rfl | hd'
        · exact dictGet_dictSet_self _ _ _
        · exact ih ds (by rw [solr_docs_from_globus_meta_results, hrest])
            d hd'

/-- C8: `maxScore` is `None` exactly when the doc list is empty and is
otherwise the maximum of the docs' score fields; every doc produced from
the backend's records carries the synthesized constant score `0.5`, so a
result with at least one such doc has `maxScore = 0.5`. -/
theorem max_score_synthesis :
    (∀ r : ESGSearchResult,
      (r.maxScore = none ↔ r.docs = []) ∧
      (∀ d ∈ r.docs, SolrDoc.scoreOf d ≤ r.maxScore.getD 0) ∧
      (r.docs ≠ [] → ∃ d ∈ r.docs, r.maxScore = some (SolrDoc.scoreOf d))) ∧
    (∀ results docs,
      solr_docs_from_globus_meta_results results = some docs →
      (∀ d ∈ docs, dictGet d "score" = some (.num (mkRat 1 2))) ∧
      (∀ numFound start, docs ≠ [] →
        (ESGSearchResult.mk numFound start docs).maxScore =
          some (mkRat 1 2))) := by
  constructor
  · intro r
    refine ⟨?_, ?_, ?_⟩
    · rw [ESGSearchResult.maxScore]
      rcases hm : r.docs.map SolrDoc.scoreOf with _ | ⟨x, xs⟩
      · simp [List.map_eq_nil_iff.mp hm]
      · have : r.docs ≠ [] := by
          intro hnil
          rw [hnil] at hm
          simp at hm
        simp [this]
    · intro d hd
      rw [ESGSearchResult.maxScore]
      rcases hm : r.docs.map SolrDoc.scoreOf with _ | ⟨x, xs⟩
      · exfalso
        rw [List.map_eq_nil_iff.mp hm] at hd
        simp at hd
      · have hmem : SolrDoc.scoreOf d ∈ x :: xs := by
          rw [← hm]
          exact List.mem_map_of_mem _ hd
        simpa using le_foldl_max x xs _ hmem
    · intro hne
      rw [ESGSearchResult.maxScore]
      rcases hm : r.docs.map SolrDoc.scoreOf with _ | ⟨x, xs⟩
      · exact absurd (List.map_eq_nil_iff.mp hm) hne
      · have hmem : xs.foldl max x ∈ x :: xs := foldl_max_mem x xs
        rw [← hm] at hmem
        rcases List.mem_map.mp hmem with ⟨d, hd, hds⟩
        exact ⟨d, hd, by rw [hds]⟩
  · intro results docs h
    have hscores := solr_docs_scores results docs h
    refine ⟨hscores, ?_⟩
    intro numFound start hne
    rw [ESGSearchResult.maxScore]
    rcases hm : docs.map SolrDoc.scoreOf with _ | ⟨x, xs⟩
    · exact absurd (List.map_eq_nil_iff.mp hm) hne
    · have hall : ∀ a ∈ x :: xs, a = mkRat 1 2 := by
        rw [← hm]
        intro a ha
        rcases List.mem_map.mp ha with ⟨d, hd, rfl⟩
        rw [SolrDoc.scoreOf, hscores d hd]
      show some (xs.foldl max x) = some (mkRat 1 2)
      rw [foldl_max_const x xs (mkRat 1 2) hall]

/-- A sample backend record list with one record and one entry. -/
def sample_results : List GlobusMetaResult :=
  [{ subject := "subj", entries := [{ content := [("a", .str "x")] }] }]

/-- The docs produced from `sample_results`. -/
def sample_docs : List SolrDoc :=
  [[("a", .str "x"), ("id", .str "subj"), ("score", .num (mkRat 1 2))]]

/-- C8 witness: instantiation of `max_score_synthesis` at
`sample_results`. -/
theorem max_score_synthesis_witness :
    solr_docs_from_globus_meta_results sample_results = some sample_docs ∧
    (ESGSearchResult.mk 1 0 sample_docs).maxScore = some (mkRat 1 2) :=
  ⟨by decide,
    (max_score_synthesis.2 sample_results sample_docs (by decide)).2 1 0
      (by decide)⟩


/-! Claim C4: two-phase execution. -/

lemma from_esg_facets_none (q : ESGSearchQuery) (h : q.facets = none) :
    (GlobusSearchQuery.from_esg_search_query q).facets = none := by
  show q.facets.map GlobusSearchQuery.convert_esg_seach_facets_field = none
  rw [h]
  rfl

lemma from_esg_facets_some (q : ESGSearchQuery) (s : String)
    (h : q.facets = some s) :
    (GlobusSearchQuery.from_esg_search_query q).facets =
      some (GlobusSearchQuery.convert_esg_seach_facets_field s) := by
  show q.facets.map GlobusSearchQuery.convert_esg_seach_facets_field = _
  rw [h]
  rfl

/-- C4: the rows query (the structured query with `facets` cleared) is
sent first; when conditional-header validation of the rows response
raises, the facets query is never issued and the failure propagates; when
validation passes, a facets query (the structured query with `limit=0`)
is issued exactly when the original query requested facets, and the
merged result takes `total`/`offset`/`gmeta` from the rows response and
`facet_results` from the facets response (absent when no facets were
requested, given that the backend returns no `facet_results` for a query
whose `facets` list is empty). -/
theorem two_phase_execution (backend : GlobusSearchQuery → BackendResponse)
    (q : ESGSearchQuery) (headers : RequestHeaders)
    (hb : ∀ g, g.facets = some [] →
      (backend g).result.facet_results = none) :
    (search_globus backend q headers).1.head? =
      some (rows_backend_query q) ∧
    (∀ e, (search_globus backend q headers).2 = .error e →
      (search_globus backend q headers).1 = [rows_backend_query q]) ∧
    ((search_globus backend q headers).2 = .error .not_modified ↔
      validate_cache_request_directives
        (backend (rows_backend_query q)).toCached headers = .not_modified) ∧
    ((search_globus backend q headers).2 = .error .precondition_failed ↔
      validate_cache_request_directives
        (backend (rows_backend_query q)).toCached headers =
          .precondition_failed) ∧
    (∀ m, (search_globus backend q headers).2 = .ok m →
      m.total = (backend (rows_backend_query q)).result.total ∧
      m.offset = (backend (rows_backend_query q)).result.offset ∧
      m.gmeta = (backend (rows_backend_query q)).result.gmeta ∧
      (q.facets.isSome →
        (search_globus backend q headers).1 =
          [rows_backend_query q, facets_backend_query q] ∧
        m.facet_results =
          (backend (facets_backend_query q)).result.facet_results) ∧
      (q.facets = none →
        (search_globus backend q headers).1 = [rows_backend_query q] ∧
        m.facet_results = none)) := by
  rcases hval : validate_cache_request_directives
      (backend (rows_backend_query q)).toCached headers with _ | _ | _
  · -- validation passes: case split on the original facets field
    rcases hq : q.facets with _ | s
    · have hf := from_esg_facets_none q hq
      have hsearch : search_globus backend q headers =
          ([rows_backend_query q],
            .ok (backend (rows_backend_query q)).result) := by
        rw [search_globus]
        rw [rows_backend_query] at hval
        rw [hval, hf]
        rfl
      rw [hsearch]
      have hrows_facets : (rows_backend_query q).facets = some [] := rfl
      refine ⟨rfl, fun e he => by simp at he, by simp [hval], by simp [hval],
        fun m hm => ?_⟩
      have hm' : (backend (rows_backend_query q)).result = m := by
        simpa using hm
      subst hm'
      refine ⟨rfl, rfl, rfl, fun hsome => ?_, fun _ => ?_⟩
      · simp at hsome
      · exact ⟨rfl, hb _ hrows_facets⟩
    · have hf := from_esg_facets_some q s hq
      have hne := convert_facets_ne_nil s
      have hie : (GlobusSearchQuery.convert_esg_seach_facets_field
          s).isEmpty = false := by
        rcases hc : GlobusSearchQuery.convert_esg_seach_facets_field s with
          _ | ⟨a, t⟩
        · exact absurd hc hne
        · rfl
      have hsearch : search_globus backend q headers =
          ([rows_backend_query q, facets_backend_query q],
            .ok { (backend (rows_backend_query q)).result with
                    facet_results :=
                      (backend
                        (facets_backend_query q)).result.facet_results }) := by
        rw [search_globus]
        rw [rows_backend_query] at hval
        rw [hval, hf]
        simp only [hie, Bool.false_eq_true, if_false]
        rfl
      rw [hsearch]
      refine ⟨rfl, fun e he => by simp at he, by simp [hval], by simp [hval],
        fun m hm => ?_⟩
      have hm' : ({ (backend (rows_backend_query q)).result with
          facet_results :=
            (backend
              (facets_backend_query q)).result.facet_results } :
          GlobusSearchResult) = m := by
        simpa using hm
      subst hm'
      exact ⟨rfl, rfl, rfl, fun _ => ⟨rfl, rfl⟩,
        fun hnone => by simp at hnone⟩
  · -- 304 raised before any facets call
    have hsearch : search_globus backend q headers =
        ([rows_backend_query q], .error .not_modified) := by
      rw [search_globus]
      rw [rows_backend_query] at hval
      rw [hval]
      rfl
    rw [hsearch]
    exact ⟨rfl, fun e _ => rfl, by simp [hval], by simp [hval],
      fun m hm => by simp at hm⟩
  · -- 412 raised before any facets call
    have hsearch : search_globus backend q headers =
        ([rows_backend_query q], .error .precondition_failed) := by
      rw [search_globus]
      rw [rows_backend_query] at hval
      rw [hval]
      rfl
    rw [hsearch]
    exact ⟨rfl, fun e _ => rfl, by simp [hval], by simp [hval],
      fun m hm => by simp at hm⟩

/-- A constant sample backend: never from cache, empty result, no facet
results. -/
def sample_backend : GlobusSearchQuery → BackendResponse :=
  fun _ =>
    { result :=
        { gmeta := [], offset := 0, count := 0, total := 0,
          has_next_page := false } }

/-- C4 witness: instantiation of `two_phase_execution` at a concrete
backend and a faceted query: both queries are issued, rows first. -/
theorem two_phase_execution_witness :
    (∀ g, g.facets = some [] →
      (sample_backend g).result.facet_results = none) ∧
    (search_globus sample_backend { facets := some "experiment" }
        {}).1.head? =
      some (rows_backend_query { facets := some "experiment" }) :=
  ⟨fun _ _ => rfl,
    (two_phase_execution sample_backend { facets := some "experiment" } {}
      (fun _ _ => rfl)).1⟩

end EsgFastapi
